import Mathlib

/-!
Shallow embedding of `src/client/ybplugins/login.py` (yobot): login-code
issuance and redemption, password verification with lockout, cookie-based
session recall, session issuance, and the password-reset flow.

Conventions of the embedding:
* Database rows (`ybdata.User`, `ybdata.User_login`) are structures; the
  store is an explicit list of rows, and `save()` is modelled as replacing
  the row keyed by the lookup predicate.
* Time (`time.time()`), the client address, and the random strings produced
  by `rand_string` are parameters of each operation (external inputs).
* Python raising `ExceptionWithAdvice` is modelled with `Except`; a raised
  exception that the handler does not catch is the `crash` outcome.
* A Python falsy string field (`None` or `''`) is modelled as `""`; an
  optional request parameter is `Option String` with `none` for absent.
-/

/-- Seven days in seconds (`EXPIRED_TIME` in the source). -/
def EXPIRED_TIME : Nat := 7 * 24 * 60 * 60

/-- Modelled from the spec: the Secret Hasher's fixed one-way digest
(`hashlib.sha256(...).hexdigest()` in the source, an external library
function), represented as an executable, deterministic, injective digest.
No claim in this development depends on the internal structure of the
digest, only on determinism and on distinctness of distinct inputs. -/
def sha256_hexdigest (s : String) : String := String.append "sha256." s

/-- `_add_salt_and_hash(raw, salt)`: concatenate the secret and the salt and
digest the result (line 29 of the source). -/
def add_salt_and_hash (raw salt : String) : String :=
  sha256_hexdigest (raw ++ salt)

/-- Modelled from the spec: the `ybdata.User` row (the `ybdata` module is not
under `src/`); the fields are exactly those `login.py` reads and writes.
Empty `password`/`salt` mean "not configured" (spec section 3); `privacy` is
the wrong-password failure counter. -/
structure User where
  qqid : Nat
  nickname : String := ""
  authority_group : Nat := 100
  password : String := ""
  salt : String := ""
  privacy : Nat := 0
  login_code : String := ""
  login_code_available : Bool := false
  login_code_expire_time : Nat := 0
  last_login_time : Nat := 0
  last_login_ipaddr : String := ""
deriving Repr, DecidableEq

/-- Modelled from the spec: the `ybdata.User_login` session row (the `ybdata`
module is not under `src/`); the fields are those `login.py` reads and
writes. -/
structure User_login where
  qqid : Nat
  auth_cookie : String
  auth_cookie_expire_time : Nat
  last_login_time : Nat := 0
  last_login_ipaddr : String := ""
deriving Repr, DecidableEq

/-- `ExceptionWithAdvice(reason, advice)` (lines 21–26 of the source). -/
structure ExceptionWithAdvice where
  reason : String
  advice : String
deriving Repr, DecidableEq

/-- Modelled from the spec: the Credential Store lookup
`User.get_or_none(User.qqid == qqid)` with a string comparand, which the
external store coerces against the integer key column. -/
def find_user (users : List User) (qqid : String) : Option User :=
  users.find? (fun u => toString u.qqid == qqid)

/-- Replace the first element satisfying `p` (a row update through the
store, keyed by the lookup predicate). -/
def updateFirst (p : α → Bool) (f : α → α) : List α → List α
  | [] => []
  | x :: xs => if p x then f x :: xs else x :: updateFirst p f xs

/-- Modelled from the spec: `user.save()` persists the row keyed by `qqid`
(last-write-wins upsert of the Credential Store). -/
def save_user (users : List User) (u : User) : List User :=
  updateFirst (fun x => x.qqid == u.qqid) (fun _ => u) users

/-- Python's `str.split(sep)` for a one-character separator, on the
character list: splitting the empty list gives one empty part, and every
occurrence of the separator starts a new part. -/
def splitChars (sep : Char) : List Char → List (List Char)
  | [] => [[]]
  | c :: cs =>
    let r := splitChars sep cs
    if c = sep then [] :: r
    else
      match r with
      | [] => [[c]]
      | h :: t => (c :: h) :: t

/-- Python's `str.split(sep)` for a one-character separator
(`auth_cookie.split(':')` in the source), written by structural recursion
so that it evaluates inside the kernel. -/
def pySplit (s : String) (sep : Char) : List String :=
  (splitChars sep s.data).map List.asString

/-- The `NotConfigured` failure of `_check_pwd` (lines 145–148). -/
def notConfiguredErr (pfx : String) : ExceptionWithAdvice :=
  ⟨"QQ号错误 或 您尚未设置密码",
   "请私聊机器人“" ++ pfx ++ "登录”后，再次选择[修改密码]修改"⟩

/-- The `AccountLocked` failure of `_check_pwd` (lines 150–153). -/
def accountLockedErr (pfx : String) : ExceptionWithAdvice :=
  ⟨"您的密码错误次数过多，账号已锁定",
   "如果忘记密码，请私聊机器人“" ++ pfx ++ "登录”后，再次选择[修改密码]修改"⟩

/-- The `InvalidCredentials` failure of `_check_pwd` (lines 157–160). -/
def wrongPwdErr (pfx : String) : ExceptionWithAdvice :=
  ⟨"您的密码不正确",
   "如果忘记密码，请私聊机器人“" ++ pfx ++ "登录”后，再次选择[修改密码]修改"⟩

/-- The `InvalidAddress` failure of `_check_key` (lines 171–174). -/
def invalidAddressErr : ExceptionWithAdvice :=
  ⟨"无效的登录地址", "请检查登录地址是否完整且为最新。"⟩

/-- The `Expired` failure of `_check_key` (lines 177–180). -/
def keyExpiredErr (pfx : String) : ExceptionWithAdvice :=
  ⟨"这个登录地址已过期", "私聊机器人“" ++ pfx ++ "登录”获取新登录地址"⟩

/-- The `AlreadyUsed` failure of `_check_key` (lines 183–186). -/
def keyUsedErr (pfx : String) : ExceptionWithAdvice :=
  ⟨"这个登录地址已被使用", "私聊机器人“" ++ pfx ++ "登录”获取新登录地址"⟩

/-- Result of `Login._check_pwd` (lines 139–161): the outcome, the user
object as the call leaves it (the mismatch branch mutates `privacy`), and
whether `user.save()` ran. -/
structure CheckPwdOut where
  result : Except ExceptionWithAdvice Unit
  user : Option User
  saved : Bool
deriving Repr

/-- `Login._check_pwd(user, pwd)` (lines 139–161).  `pfx` is the value of
`self._get_prefix()` used in the advice strings. -/
def check_pwd (pfx : String) (user : Option User) (pwd : String) : CheckPwdOut :=
  match user with
  | none => ⟨.error (notConfiguredErr pfx), none, false⟩
  | some u =>
    if u.password = "" ∨ u.salt = "" then
      ⟨.error (notConfiguredErr pfx), some u, false⟩
    else if 3 ≤ u.privacy then
      ⟨.error (accountLockedErr pfx), some u, false⟩
    else if u.password ≠ add_salt_and_hash pwd u.salt then
      ⟨.error (wrongPwdErr pfx), some { u with privacy := u.privacy + 1 }, true⟩
    else
      ⟨.ok (), some u, false⟩

/-- The persisted user record after one `_check_pwd` attempt: the record the
call leaves behind (`privacy` bumped and saved on a mismatch, unchanged
otherwise). -/
def pwd_attempt (pfx : String) (pwd : String) (u : User) : User :=
  (check_pwd pfx (some u) pwd).user.getD u

/-- `Login._check_key(user, key)` (lines 163–187). -/
def check_key (pfx : String) (now : Nat) (user : Option User) (key : String) :
    Except ExceptionWithAdvice Unit :=
  match user with
  | none => .error invalidAddressErr
  | some u =>
    if u.login_code ≠ key then .error invalidAddressErr
    else if u.login_code_expire_time < now then .error (keyExpiredErr pfx)
    else if u.login_code_available = false then .error (keyUsedErr pfx)
    else .ok ()

/-- Result of `Login._recall_from_cookie` (lines 189–223): the outcome and
the session store after the call (last-seen metadata persisted on
success). -/
structure RecallOut where
  result : Except ExceptionWithAdvice User
  logins : List User_login
deriving Repr

/-- `Login._recall_from_cookie(auth_cookie)` (lines 189–223).  `now` is
`time.time()`, `ipaddr` the client address from the request headers. -/
def recall_from_cookie (pfx : String) (now : Nat) (ipaddr : String)
    (users : List User) (logins : List User_login) (auth_cookie : String) :
    RecallOut :=
  let advice1 := "请私聊机器人“" ++ pfx ++ "登录”或重新登录"
  if auth_cookie = "" then ⟨.error ⟨"登录已过期", advice1⟩, logins⟩
  else
    match pySplit auth_cookie ':' with
    | [qqid, auth] =>
      let advice2 := "请先加入一个公会 或 私聊机器人“" ++ pfx ++ "登录”"
      match find_user users qqid with
      | none => ⟨.error ⟨"用户不存在", advice2⟩, logins⟩
      | some user =>
        let salty := add_salt_and_hash auth user.salt
        match logins.find? (fun l => toString l.qqid == qqid && l.auth_cookie == salty) with
        | none => ⟨.error ⟨"Cookie异常", advice2⟩, logins⟩
        | some ul =>
          if ul.auth_cookie_expire_time < now then
            ⟨.error ⟨"登录已过期", advice2⟩, logins⟩
          else
            ⟨.ok user,
             updateFirst (fun l => toString l.qqid == qqid && l.auth_cookie == salty)
               (fun l => { l with last_login_time := now, last_login_ipaddr := ipaddr })
               logins⟩
    | _ => ⟨.error ⟨"Cookie异常", advice1⟩, logins⟩

/-- Result of `Login._set_auth_info(user, res)` with a response: the user
object with its last-login metadata updated, the freshly created
`User_login` row, and the cookie string handed to the browser. -/
structure SetAuthOut where
  user : User
  new_login : User_login
  cookie : String
deriving Repr, DecidableEq

/-- `Login._set_auth_info(user, res)` with a response (lines 225–251):
updates the user's last-login metadata, creates a `User_login` row holding
the salted hash of a fresh 32-character secret, and produces the cookie
string `"<qqid>:<secret>"`.  The random secret `new_key` (`rand_string(32)`)
is a parameter. -/
def set_auth_info (now : Nat) (ipaddr : String) (new_key : String) (user : User) :
    SetAuthOut :=
  ⟨{ user with last_login_time := now, last_login_ipaddr := ipaddr },
   ⟨user.qqid, add_salt_and_hash new_key user.salt, now + EXPIRED_TIME, 0, ""⟩,
   toString user.qqid ++ ":" ++ new_key⟩

/-- The user-record effect of `Login.execute` (lines 70–76): store a fresh
login code with a 60-second expiry and mark it available, overwriting the
previous code.  The random code (`rand_string(6)`) is a parameter. -/
def issue_login_code (now : Nat) (login_code : String) (user : User) : User :=
  { user with
      login_code := login_code,
      login_code_available := true,
      login_code_expire_time := now + 60 }

/-- A request hitting the `yobot_login` route: `get_params` values and the
presented cookie, with `none` for a Python-falsy/absent parameter, plus
whether `'yobot_user' in session` (a live server-side session). -/
structure LoginRequest where
  qqid : Option String
  key : Option String
  pwd : Option String
  auth_cookie : Option String
  session_live : Bool
deriving Repr, DecidableEq

/-- The terminal outcome of the `yobot_login` handler. -/
inductive LoginOutcome where
  | page_prompt : LoginOutcome
  | redirect_session_alive : LoginOutcome
  | redirect_recalled : User → LoginOutcome
  | issue : User → String → LoginOutcome
  | fail : ExceptionWithAdvice → LoginOutcome
  | crash : LoginOutcome
deriving Repr, DecidableEq

/-- Outcome of a `yobot_login` request together with the user and session
stores after the request. -/
structure LoginResult where
  outcome : LoginOutcome
  users : List User
  logins : List User_login
deriving Repr, DecidableEq

/-- Lines 300–323 of the handler: the cookie-recall branch (entered when a
cookie is presented and `qqid` is absent or was cleared by a deferred code
failure), the no-key-no-pwd guard, and session issuance. -/
def login_after_pwd (pfx : String) (now : Nat) (ipaddr new_key : String)
    (users : List User) (logins : List User_login) (req : LoginRequest)
    (qqid_cur : Option String) (key_failure : Option ExceptionWithAdvice)
    (user : Option User) : LoginResult :=
  match req.auth_cookie, qqid_cur with
  | some ck, none =>
    if req.session_live then ⟨.redirect_session_alive, users, logins⟩
    else
      let r := recall_from_cookie pfx now ipaddr users logins ck
      match r.result with
      | .error e =>
        match key_failure with
        | some kf => ⟨.fail kf, users, r.logins⟩
        | none => ⟨.fail e, users, r.logins⟩
      | .ok u =>
        let u' := { u with last_login_time := now, last_login_ipaddr := ipaddr }
        ⟨.redirect_recalled u', save_user users u', r.logins⟩
  | _, _ =>
    match req.key, req.pwd with
    | none, none => ⟨.fail ⟨"无效的登录地址", "请检查登录地址是否完整"⟩, users, logins⟩
    | _, _ =>
      match user with
      | none => ⟨.crash, users, logins⟩
      | some u =>
        let out := set_auth_info now ipaddr new_key u
        let u2 := { out.user with login_code_available := false }
        ⟨.issue u2 out.cookie, save_user users u2, logins ++ [out.new_login]⟩

/-- Lines 297–298 of the handler: the `if pwd:` step inside the `if qqid:`
block (it runs even when a code failure was deferred), then the rest of the
handler. -/
def login_after_key (pfx : String) (now : Nat) (ipaddr new_key : String)
    (users : List User) (logins : List User_login) (req : LoginRequest)
    (qqid_cur : Option String) (key_failure : Option ExceptionWithAdvice)
    (user : Option User) : LoginResult :=
  match req.pwd with
  | none => login_after_pwd pfx now ipaddr new_key users logins req qqid_cur key_failure user
  | some p =>
    let c := check_pwd pfx user p
    let users1 :=
      match c.user with
      | some u1 => if c.saved then save_user users u1 else users
      | none => users
    match c.result with
    | .error e => ⟨.fail e, users1, logins⟩
    | .ok _ => login_after_pwd pfx now ipaddr new_key users1 logins req qqid_cur key_failure user

/-- The `yobot_login` route handler (lines 260–323): the prompt page when
neither `qqid` nor a cookie is presented; the code check with its deferral
to cookie recall when a cookie is also presented; the password check; the
cookie-recall branch; and session issuance, which marks the login code
consumed and persists the user. -/
def yobot_login (pfx : String) (now : Nat) (ipaddr new_key : String)
    (users : List User) (logins : List User_login) (req : LoginRequest) :
    LoginResult :=
  match req.qqid with
  | none =>
    match req.auth_cookie with
    | none => ⟨.page_prompt, users, logins⟩
    | some _ => login_after_pwd pfx now ipaddr new_key users logins req none none none
  | some q =>
    let user := find_user users q
    match req.key with
    | none => login_after_key pfx now ipaddr new_key users logins req (some q) none user
    | some k =>
      match check_key pfx now user k with
      | .ok _ => login_after_key pfx now ipaddr new_key users logins req (some q) none user
      | .error e =>
        match req.auth_cookie with
        | some _ => login_after_key pfx now ipaddr new_key users logins req none (some e) user
        | none => ⟨.fail e, users, logins⟩

/-- Outcome of the `yobot_reset_pwd` route. -/
inductive ResetOutcome where
  | redirect_login : ResetOutcome
  | failure : String → ResetOutcome
  | success : ResetOutcome
deriving Repr, DecidableEq

/-- The `yobot_reset_pwd` route (POST branch, lines 403–423): looks up the
session user, stores the salted hash of the submitted password computed
with the user's existing salt, resets the `privacy` failure counter to 0,
and persists the user. -/
def yobot_reset_pwd (session_user : Option Nat) (pwd : String)
    (users : List User) : ResetOutcome × List User :=
  match session_user with
  | none => (.redirect_login, users)
  | some qq =>
    match users.find? (fun x => x.qqid == qq) with
    | none => (.failure "请先加公会", users)
    | some user =>
      let user' := { user with password := add_salt_and_hash pwd user.salt, privacy := 0 }
      (.success, save_user users user')

/-- Modelled from the claim C2 as amended: the Recall contract.  An
absent/empty cookie fails Expired (`登录已过期`); otherwise the cookie is
split on `':'` and anything but exactly two parts fails Malformed
(`Cookie异常`); an unknown user id fails UserNotFound (`用户不存在`); no
session row matching `(userId, Hash(secondPart, salt))` fails
InvalidSession (`Cookie异常`); a matching session with
`expireAt < now` fails Expired; otherwise the session's last-seen metadata
is updated and persisted and the user is returned. -/
def recall_contract (pfx : String) (now : Nat) (ipaddr : String)
    (users : List User) (logins : List User_login) (cookieValue : String) :
    RecallOut :=
  let advice1 := "请私聊机器人“" ++ pfx ++ "登录”或重新登录"
  if cookieValue = "" then ⟨.error ⟨"登录已过期", advice1⟩, logins⟩
  else
    let parts := pySplit cookieValue ':'
    if parts.length = 2 then
      let qqid := parts.getD 0 ""
      let auth := parts.getD 1 ""
      let advice2 := "请先加入一个公会 或 私聊机器人“" ++ pfx ++ "登录”"
      match find_user users qqid with
      | none => ⟨.error ⟨"用户不存在", advice2⟩, logins⟩
      | some user =>
        let salty := add_salt_and_hash auth user.salt
        match logins.find? (fun l => toString l.qqid == qqid && l.auth_cookie == salty) with
        | none => ⟨.error ⟨"Cookie异常", advice2⟩, logins⟩
        | some ul =>
          if ul.auth_cookie_expire_time < now then
            ⟨.error ⟨"登录已过期", advice2⟩, logins⟩
          else
            ⟨.ok user,
             updateFirst (fun l => toString l.qqid == qqid && l.auth_cookie == salty)
               (fun l => { l with last_login_time := now, last_login_ipaddr := ipaddr })
               logins⟩
    else ⟨.error ⟨"Cookie异常", advice1⟩, logins⟩

/-! ## Helper lemmas -/

theorem check_pwd_some (pfx pwd : String) (u : User) :
    check_pwd pfx (some u) pwd =
      if u.password = "" ∨ u.salt = "" then ⟨.error (notConfiguredErr pfx), some u, false⟩
      else if 3 ≤ u.privacy then ⟨.error (accountLockedErr pfx), some u, false⟩
      else if u.password ≠ add_salt_and_hash pwd u.salt then
        ⟨.error (wrongPwdErr pfx), some { u with privacy := u.privacy + 1 }, true⟩
      else ⟨.ok (), some u, false⟩ := rfl

theorem check_key_some (pfx : String) (now : Nat) (u : User) (key : String) :
    check_key pfx now (some u) key =
      if u.login_code ≠ key then .error invalidAddressErr
      else if u.login_code_expire_time < now then .error (keyExpiredErr pfx)
      else if u.login_code_available = false then .error (keyUsedErr pfx)
      else .ok () := rfl

theorem check_pwd_locked_eq (pfx pwd : String) (u : User)
    (hp : u.password ≠ "") (hs : u.salt ≠ "") (hl : 3 ≤ u.privacy) :
    check_pwd pfx (some u) pwd = ⟨.error (accountLockedErr pfx), some u, false⟩ := by
  rw [check_pwd_some, if_neg (by simp [hp, hs]), if_pos hl]

theorem check_pwd_mismatch_eq (pfx pwd : String) (u : User)
    (hp : u.password ≠ "") (hs : u.salt ≠ "") (hl : u.privacy < 3)
    (hm : u.password ≠ add_salt_and_hash pwd u.salt) :
    check_pwd pfx (some u) pwd =
      ⟨.error (wrongPwdErr pfx), some { u with privacy := u.privacy + 1 }, true⟩ := by
  rw [check_pwd_some, if_neg (by simp [hp, hs]), if_neg (by omega), if_pos hm]

theorem check_pwd_match_eq (pfx pwd : String) (u : User)
    (hp : u.password ≠ "") (hs : u.salt ≠ "") (hl : u.privacy < 3)
    (hm : u.password = add_salt_and_hash pwd u.salt) :
    check_pwd pfx (some u) pwd = ⟨.ok (), some u, false⟩ := by
  rw [check_pwd_some, if_neg (by simp [hp, hs]), if_neg (by omega), if_neg (by simp [hm])]

theorem pwd_attempt_wrong (pfx pwd : String) (u : User)
    (hp : u.password ≠ "") (hs : u.salt ≠ "") (hl : u.privacy < 3)
    (hm : u.password ≠ add_salt_and_hash pwd u.salt) :
    pwd_attempt pfx pwd u = { u with privacy := u.privacy + 1 } := by
  unfold pwd_attempt
  rw [check_pwd_mismatch_eq pfx pwd u hp hs hl hm]
  rfl

theorem check_key_ok_eq (pfx : String) (now : Nat) (u : User)
    (hav : u.login_code_available = true) (hexp : now ≤ u.login_code_expire_time) :
    check_key pfx now (some u) u.login_code = .ok () := by
  rw [check_key_some, if_neg (by simp), if_neg (by omega), if_neg (by simp [hav])]

theorem find_user_singleton (u : User) : find_user [u] (toString u.qqid) = some u :=
  List.find?_cons_of_pos _ (by simp)

/-! ## Claim theorems -/

/-- Claim C1: with password and salt configured and `privacy ≥ 3`, `_check_pwd`
fails AccountLocked with the user record unmodified and not persisted, whatever
password was submitted (in particular the correct one); and three consecutive
wrong-password attempts starting from a zero counter raise `privacy` to 3, after
which an attempt with the correct password fails AccountLocked. -/
theorem check_pwd_account_locked (pfx pwd w1 w2 w3 cpw : String) (u v : User)
    (hup : u.password ≠ "") (hus : u.salt ≠ "") (hul : 3 ≤ u.privacy)
    (hvp : v.password ≠ "") (hvs : v.salt ≠ "") (hv0 : v.privacy = 0)
    (hw1 : v.password ≠ add_salt_and_hash w1 v.salt)
    (hw2 : v.password ≠ add_salt_and_hash w2 v.salt)
    (hw3 : v.password ≠ add_salt_and_hash w3 v.salt)
    (hc : v.password = add_salt_and_hash cpw v.salt) :
    check_pwd pfx (some u) pwd = ⟨.error (accountLockedErr pfx), some u, false⟩ ∧
    (pwd_attempt pfx w3 (pwd_attempt pfx w2 (pwd_attempt pfx w1 v))).privacy = 3 ∧
    check_pwd pfx (some (pwd_attempt pfx w3 (pwd_attempt pfx w2 (pwd_attempt pfx w1 v)))) cpw =
      ⟨.error (accountLockedErr pfx),
       some (pwd_attempt pfx w3 (pwd_attempt pfx w2 (pwd_attempt pfx w1 v))), false⟩ := by
  have h1 : pwd_attempt pfx w1 v = { v with privacy := v.privacy + 1 } :=
    pwd_attempt_wrong pfx w1 v hvp hvs (by omega) hw1
  have h2 : pwd_attempt pfx w2 { v with privacy := v.privacy + 1 } =
      { v with privacy := v.privacy + 1 + 1 } :=
    pwd_attempt_wrong pfx w2 _ hvp hvs (by show v.privacy + 1 < 3; omega) hw2
  have h3 : pwd_attempt pfx w3 { v with privacy := v.privacy + 1 + 1 } =
      { v with privacy := v.privacy + 1 + 1 + 1 } :=
    pwd_attempt_wrong pfx w3 _ hvp hvs (by show v.privacy + 1 + 1 < 3; omega) hw3
  refine ⟨check_pwd_locked_eq pfx pwd u hup hus hul, ?_, ?_⟩
  · rw [h1, h2, h3]
    show v.privacy + 1 + 1 + 1 = 3
    omega
  · rw [h1, h2, h3]
    exact check_pwd_locked_eq pfx cpw _ hvp hvs (by show 3 ≤ v.privacy + 1 + 1 + 1; omega)

/-- Witness for C1 at a concrete locked user and a concrete three-strikes run. -/
theorem check_pwd_account_locked_witness :
    check_pwd "" (some { qqid := 1, password := "h", salt := "s", privacy := 3 }) "pw" =
      ⟨.error (accountLockedErr ""), some { qqid := 1, password := "h", salt := "s", privacy := 3 },
       false⟩ ∧
    (pwd_attempt "" "x"
        (pwd_attempt "" "x"
          (pwd_attempt "" "x"
            { qqid := 2, password := add_salt_and_hash "pw" "t", salt := "t", privacy := 0 }))).privacy = 3 ∧
    check_pwd ""
        (some (pwd_attempt "" "x"
          (pwd_attempt "" "x"
            (pwd_attempt "" "x"
              { qqid := 2, password := add_salt_and_hash "pw" "t", salt := "t", privacy := 0 })))) "pw" =
      ⟨.error (accountLockedErr ""),
       some (pwd_attempt "" "x"
         (pwd_attempt "" "x"
           (pwd_attempt "" "x"
             { qqid := 2, password := add_salt_and_hash "pw" "t", salt := "t", privacy := 0 }))),
       false⟩ :=
  check_pwd_account_locked "" "pw" "x" "x" "x" "pw"
    { qqid := 1, password := "h", salt := "s", privacy := 3 }
    { qqid := 2, password := add_salt_and_hash "pw" "t", salt := "t", privacy := 0 }
    (by decide) (by decide) (by decide) (by decide) (by decide) rfl
    (by decide) (by decide) (by decide) rfl

/-- Claim C8: with password and salt configured and `privacy < 3`, `_check_pwd`
on a mismatching password increments `privacy` by exactly one, persists the
user, and fails InvalidCredentials; on a matching password it succeeds and
leaves the user record unchanged and unsaved. -/
theorem check_pwd_mismatch_or_match (pfx pwd : String) (u : User)
    (hp : u.password ≠ "") (hs : u.salt ≠ "") (hl : u.privacy < 3) :
    check_pwd pfx (some u) pwd =
      if u.password = add_salt_and_hash pwd u.salt then ⟨.ok (), some u, false⟩
      else ⟨.error (wrongPwdErr pfx), some { u with privacy := u.privacy + 1 }, true⟩ := by
  by_cases h : u.password = add_salt_and_hash pwd u.salt
  · rw [if_pos h]
    exact check_pwd_match_eq pfx pwd u hp hs hl h
  · rw [if_neg h]
    exact check_pwd_mismatch_eq pfx pwd u hp hs hl h

/-- Witness for C8 at a concrete user and submitted password. -/
theorem check_pwd_mismatch_or_match_witness :
    check_pwd "" (some { qqid := 3, password := add_salt_and_hash "pw" "t", salt := "t", privacy := 1 }) "zz" =
      if ({ qqid := 3, password := add_salt_and_hash "pw" "t", salt := "t", privacy := 1 } : User).password =
          add_salt_and_hash "zz" ({ qqid := 3, password := add_salt_and_hash "pw" "t", salt := "t", privacy := 1 } : User).salt
      then ⟨.ok (), some { qqid := 3, password := add_salt_and_hash "pw" "t", salt := "t", privacy := 1 }, false⟩
      else ⟨.error (wrongPwdErr ""),
            some { qqid := 3, password := add_salt_and_hash "pw" "t", salt := "t", privacy := 2 }, true⟩ :=
  check_pwd_mismatch_or_match "" "zz"
    { qqid := 3, password := add_salt_and_hash "pw" "t", salt := "t", privacy := 1 }
    (by decide) (by decide) (by decide)

/-- Claim C6: issuing a login code sets its expiry to exactly the issue time
plus 60 seconds; given a matching code, `_check_key` fails Expired exactly
when `login_code_expire_time < now`; a code issued at `t` succeeds at
`t + 59` and fails Expired at `t + 61`. -/
theorem login_code_expiry (pfx c k : String) (t : Nat) (u v : User)
    (hv : v.login_code = k) :
    (issue_login_code t c u).login_code_expire_time = t + 60 ∧
    check_key pfx (t + 59) (some (issue_login_code t c u)) c = .ok () ∧
    check_key pfx (t + 61) (some (issue_login_code t c u)) c = .error (keyExpiredErr pfx) ∧
    (∀ now : Nat,
      check_key pfx now (some v) k = .error (keyExpiredErr pfx) ↔
        v.login_code_expire_time < now) := by
  refine ⟨rfl, ?_, ?_, ?_⟩
  · rw [check_key_some, if_neg (by simp [issue_login_code]), if_neg (by simp [issue_login_code]),
      if_neg (by simp [issue_login_code])]
  · rw [check_key_some, if_neg (by simp [issue_login_code]),
      if_pos (by simp [issue_login_code])]
  · intro now
    rw [check_key_some, if_neg (by simp [hv])]
    by_cases hlt : v.login_code_expire_time < now
    · simp [hlt]
    · rw [if_neg hlt]
      by_cases hav : v.login_code_available = false
      · rw [if_pos hav]
        exact iff_of_false (by simp [keyUsedErr, keyExpiredErr]) hlt
      · rw [if_neg hav]
        exact iff_of_false (by simp) hlt

/-- Witness for C6 at a concrete issue time and user. -/
theorem login_code_expiry_witness :
    (issue_login_code 500 "C1B2C3" { qqid := 4 }).login_code_expire_time = 500 + 60 ∧
    check_key "" (500 + 59) (some (issue_login_code 500 "C1B2C3" { qqid := 4 })) "C1B2C3" = .ok () ∧
    check_key "" (500 + 61) (some (issue_login_code 500 "C1B2C3" { qqid := 4 })) "C1B2C3" =
      .error (keyExpiredErr "") ∧
    (∀ now : Nat,
      check_key "" now (some { qqid := 4, login_code := "Z" }) "Z" = .error (keyExpiredErr "") ↔
        ({ qqid := 4, login_code := "Z" } : User).login_code_expire_time < now) :=
  login_code_expiry "" "C1B2C3" "Z" 500 { qqid := 4 } { qqid := 4, login_code := "Z" } rfl

/-- Claim C7: issuing a new login code overwrites the previous one on the
user record, so redeeming the previously issued, unconsumed code afterwards
fails InvalidAddress (assuming the freshly generated code differs from the
old one). -/
theorem new_code_invalidates_old (pfx c1 c2 : String) (now t2 : Nat) (u : User)
    (h1 : u.login_code = c1) (h2 : u.login_code_available = true) (hne : c2 ≠ c1) :
    check_key pfx now (some (issue_login_code t2 c2 u)) c1 = .error invalidAddressErr := by
  rw [check_key_some, if_pos (by simp [issue_login_code, hne])]

/-- Witness for C7: the old code `"OLD111"` is rejected after `"NEW222"` is
issued. -/
theorem new_code_invalidates_old_witness :
    check_key "" 80
        (some (issue_login_code 70 "NEW222"
          { qqid := 5, login_code := "OLD111", login_code_available := true,
            login_code_expire_time := 120 })) "OLD111" =
      .error invalidAddressErr :=
  new_code_invalidates_old "" "OLD111" "NEW222" 80 70
    { qqid := 5, login_code := "OLD111", login_code_available := true,
      login_code_expire_time := 120 }
    rfl rfl (by decide)

/-- Claim C9 counterexample: for a user with no salt configured (the empty
salt), the reset-password flow does not generate a fresh salt: it stores the
hash computed with the empty salt and leaves `salt` empty. -/
theorem reset_pwd_no_fresh_salt :
    (yobot_reset_pwd (some 7) "newpw" [{ qqid := 7 }]).1 = .success ∧
    (yobot_reset_pwd (some 7) "newpw" [{ qqid := 7 }]).2 =
      [{ qqid := 7, password := add_salt_and_hash "newpw" "", privacy := 0 }] ∧
    (((yobot_reset_pwd (some 7) "newpw" [{ qqid := 7 }]).2.headD { qqid := 0 }).salt = "") :=
  ⟨rfl, rfl, rfl⟩

theorem yobot_reset_pwd_some (qq : Nat) (pwd : String) (users : List User) :
    yobot_reset_pwd (some qq) pwd users =
      match users.find? (fun x => x.qqid == qq) with
      | none => (.failure "请先加公会", users)
      | some user =>
        (.success,
         save_user users { user with password := add_salt_and_hash pwd user.salt, privacy := 0 }) :=
  rfl

/-- Claim C9 as amended: the reset-password flow stores the salted hash of
the new password computed with the user's existing salt unconditionally (no
fresh salt is generated when none existed), resets the `privacy` failure
counter to 0, leaves every other field (including `salt`) unchanged, and
persists the user. -/
theorem reset_pwd_stores_hash (qq : Nat) (pwd : String)
    (users : List User) (user : User)
    (hu : users.find? (fun x => x.qqid == qq) = some user) :
    yobot_reset_pwd (some qq) pwd users =
      (.success,
       save_user users { user with password := add_salt_and_hash pwd user.salt, privacy := 0 }) ∧
    ({ user with password := add_salt_and_hash pwd user.salt, privacy := 0 }).salt = user.salt ∧
    ({ user with password := add_salt_and_hash pwd user.salt, privacy := 0 }).privacy = 0 := by
  refine ⟨?_, rfl, rfl⟩
  rw [yobot_reset_pwd_some, hu]

/-- Witness for the amended C9 at a concrete user with a configured salt. -/
theorem reset_pwd_stores_hash_witness :
    yobot_reset_pwd (some 8) "np" [{ qqid := 8, password := "old", salt := "s8", privacy := 2 }] =
      (.success,
       save_user [{ qqid := 8, password := "old", salt := "s8", privacy := 2 }]
         { ({ qqid := 8, password := "old", salt := "s8", privacy := 2 } : User) with
             password := add_salt_and_hash "np" "s8", privacy := 0 }) ∧
    ({ ({ qqid := 8, password := "old", salt := "s8", privacy := 2 } : User) with
         password := add_salt_and_hash "np" "s8", privacy := 0 } : User).salt = "s8" ∧
    ({ ({ qqid := 8, password := "old", salt := "s8", privacy := 2 } : User) with
         password := add_salt_and_hash "np" "s8", privacy := 0 } : User).privacy = 0 :=
  reset_pwd_stores_hash 8 "np" [{ qqid := 8, password := "old", salt := "s8", privacy := 2 }]
    { qqid := 8, password := "old", salt := "s8", privacy := 2 } (by decide)

/-- Claim C2 counterexample: `_recall_from_cookie` on the empty cookie value
fails with the `登录已过期` (Expired) reason, not the `Cookie异常`
(Malformed) reason the claim requires for an input that splits into fewer
than two parts. -/
theorem recall_empty_cookie_not_malformed :
    (recall_from_cookie "" 0 "" [] [] "").result =
      .error ⟨"登录已过期", "请私聊机器人“登录”或重新登录"⟩ ∧
    ("登录已过期" : String) ≠ "Cookie异常" :=
  ⟨rfl, by decide⟩

/-- Claim C2 as amended: `_recall_from_cookie` implements the Recall
contract of `recall_contract`, whose empty-cookie case is corrected to fail
Expired (`登录已过期`) rather than Malformed; all other cases are as the
claim states them. -/
theorem recall_matches_contract (pfx : String) (now : Nat) (ipaddr : String)
    (users : List User) (logins : List User_login) (ck : String) :
    recall_from_cookie pfx now ipaddr users logins ck =
      recall_contract pfx now ipaddr users logins ck := by
  unfold recall_from_cookie recall_contract
  by_cases h : ck = ""
  · rw [if_pos h, if_pos h]
  · rw [if_neg h, if_neg h]
    rcases hs : pySplit ck ':' with _ | ⟨a, _ | ⟨b, _ | ⟨c, t⟩⟩⟩
    · simp
    · simp
    · simp
    · simp

/-- Claim C3: `_set_auth_info` with a response stores the salted hash of the
fresh secret in a new `User_login` row and returns the cookie
`"<qqid>:<secret>"`; `_recall_from_cookie` on that exact cookie, against a
store holding the user and the new row, immediately succeeds and returns
the same user.  Hypotheses: the user's row is the one its id looks up, the
generated secret contains no `':'` (so the cookie splits into its two
parts), and no other session row already matches the pair. -/
theorem issue_then_recall_roundtrip (pfx ip ip2 new_key : String) (now : Nat)
    (users : List User) (logins : List User_login) (u : User)
    (hu : find_user users (toString u.qqid) = some u)
    (hsplit : pySplit (toString u.qqid ++ ":" ++ new_key) ':' = [toString u.qqid, new_key])
    (hfresh : logins.find? (fun l => toString l.qqid == toString u.qqid &&
        l.auth_cookie == add_salt_and_hash new_key u.salt) = none) :
    (recall_from_cookie pfx now ip2 users
        (logins ++ [(set_auth_info now ip new_key u).new_login])
        (set_auth_info now ip new_key u).cookie).result = .ok u := by
  show (recall_from_cookie pfx now ip2 users
      (logins ++ [⟨u.qqid, add_salt_and_hash new_key u.salt, now + EXPIRED_TIME, 0, ""⟩])
      (toString u.qqid ++ ":" ++ new_key)).result = .ok u
  have h0 : pySplit "" ':' = [""] := rfl
  have hne : toString u.qqid ++ ":" ++ new_key ≠ "" := by
    intro hempty
    rw [hempty, h0] at hsplit
    simp at hsplit
  have hnl : ¬ (now + EXPIRED_TIME < now) := by omega
  unfold recall_from_cookie
  rw [if_neg hne]
  simp only [hsplit, hu, List.find?_append, hfresh]
  simp [List.find?, hnl]

/-- Witness for C3: a concrete issue-then-recall round trip for user 1001. -/
theorem issue_then_recall_roundtrip_witness :
    (recall_from_cookie "" 100 "ip2" [{ qqid := 1001, salt := "s" }]
        ([] ++ [(set_auth_info 100 "ip" "secret32" { qqid := 1001, salt := "s" }).new_login])
        (set_auth_info 100 "ip" "secret32" { qqid := 1001, salt := "s" }).cookie).result =
      .ok { qqid := 1001, salt := "s" } :=
  issue_then_recall_roundtrip "" "ip" "ip2" "secret32" 100
    [{ qqid := 1001, salt := "s" }] [] { qqid := 1001, salt := "s" }
    (by decide) (by decide) rfl

/-- Claim C5: a login code is single-use.  For a user holding a fresh,
unexpired, available code, the first redemption through the login entry
point succeeds: it issues a session cookie and persists the user with
`login_code_available = false`; an immediate second redemption of the same
code against the updated store fails AlreadyUsed. -/
theorem login_code_single_use_thm (pfx ip nk nk2 : String) (now : Nat) (u : User)
    (hav : u.login_code_available = true)
    (hexp : now ≤ u.login_code_expire_time) :
    yobot_login pfx now ip nk [u] []
        ⟨some (toString u.qqid), some u.login_code, none, none, false⟩ =
      ⟨.issue
         { u with last_login_time := now, last_login_ipaddr := ip,
                  login_code_available := false }
         (toString u.qqid ++ ":" ++ nk),
       [{ u with last_login_time := now, last_login_ipaddr := ip,
                 login_code_available := false }],
       [⟨u.qqid, add_salt_and_hash nk u.salt, now + EXPIRED_TIME, 0, ""⟩]⟩ ∧
    (yobot_login pfx now ip nk2
        [{ u with last_login_time := now, last_login_ipaddr := ip,
                  login_code_available := false }]
        [⟨u.qqid, add_salt_and_hash nk u.salt, now + EXPIRED_TIME, 0, ""⟩]
        ⟨some (toString u.qqid), some u.login_code, none, none, false⟩).outcome =
      .fail (keyUsedErr pfx) := by
  have h1 : find_user [u] (toString u.qqid) = some u := find_user_singleton u
  have h2 : check_key pfx now (some u) u.login_code = .ok () :=
    check_key_ok_eq pfx now u hav hexp
  constructor
  · simp only [yobot_login, h1, h2, login_after_key, login_after_pwd, set_auth_info,
      save_user, updateFirst, List.nil_append]
    simp
  · have h3 : find_user
        [{ u with last_login_time := now, last_login_ipaddr := ip,
                  login_code_available := false }] (toString u.qqid) =
        some { u with last_login_time := now, last_login_ipaddr := ip,
                      login_code_available := false } :=
      List.find?_cons_of_pos _ (by simp)
    have h4 : check_key pfx now
        (some { u with last_login_time := now, last_login_ipaddr := ip,
                       login_code_available := false }) u.login_code =
        .error (keyUsedErr pfx) := by
      rw [check_key_some]
      rw [if_neg (by simp), if_neg (by simp; omega), if_pos (by simp)]
    simp only [yobot_login, h3, h4]

/-- Witness for C5: the second redemption of code `"C6D5E4"` by user 9 fails
AlreadyUsed. -/
theorem login_code_single_use_witness :
    (yobot_login "" 5 "ip" "nk2"
        [{ qqid := 9, login_code := "C6D5E4", login_code_available := false,
           login_code_expire_time := 100, last_login_time := 5, last_login_ipaddr := "ip" }]
        [⟨9, add_salt_and_hash "nk" "", 5 + EXPIRED_TIME, 0, ""⟩]
        ⟨some (toString (9 : Nat)), some "C6D5E4", none, none, false⟩).outcome =
      .fail (keyUsedErr "") :=
  (login_code_single_use_thm "" "ip" "nk" "nk2" 5
    { qqid := 9, login_code := "C6D5E4", login_code_available := true,
      login_code_expire_time := 100 } rfl (by decide)).2

/-- Claim C10: a valid login code is not required when a correct password is
supplied.  A request presenting the user's id and a matching password but no
`key` parameter (with password and salt configured and the failure counter
below the lockout threshold) issues a new session cookie, sets
`login_code_available` to `false`, and persists the user — whatever cookie
was or was not presented alongside. -/
theorem login_password_without_key (pfx ip nk p : String) (now : Nat) (u : User)
    (ock : Option String)
    (hmatch : u.password = add_salt_and_hash p u.salt)
    (hp : u.password ≠ "") (hs : u.salt ≠ "") (hl : u.privacy < 3) :
    yobot_login pfx now ip nk [u] [] ⟨some (toString u.qqid), none, some p, ock, false⟩ =
      ⟨.issue
         { u with last_login_time := now, last_login_ipaddr := ip,
                  login_code_available := false }
         (toString u.qqid ++ ":" ++ nk),
       [{ u with last_login_time := now, last_login_ipaddr := ip,
                 login_code_available := false }],
       [⟨u.qqid, add_salt_and_hash nk u.salt, now + EXPIRED_TIME, 0, ""⟩]⟩ := by
  have h1 : find_user [u] (toString u.qqid) = some u := find_user_singleton u
  have h2 : check_pwd pfx (some u) p = ⟨.ok (), some u, false⟩ :=
    check_pwd_match_eq pfx p u hp hs hl hmatch
  cases ock with
  | none =>
    simp only [yobot_login, h1, login_after_key, h2, login_after_pwd, set_auth_info,
      save_user, updateFirst, List.nil_append]
    simp
  | some ck =>
    simp only [yobot_login, h1, login_after_key, h2, login_after_pwd, set_auth_info,
      save_user, updateFirst, List.nil_append]
    simp

/-- Witness for C10 at a concrete user and password. -/
theorem login_password_without_key_witness :
    yobot_login "" 50 "ip" "nk"
        [{ qqid := 6, password := add_salt_and_hash "pw" "s6", salt := "s6", privacy := 2 }] []
        ⟨some (toString (6 : Nat)), none, some "pw", none, false⟩ =
      ⟨.issue
         { qqid := 6, password := add_salt_and_hash "pw" "s6", salt := "s6", privacy := 2,
           login_code_available := false, last_login_time := 50, last_login_ipaddr := "ip" }
         (toString (6 : Nat) ++ ":" ++ "nk"),
       [{ qqid := 6, password := add_salt_and_hash "pw" "s6", salt := "s6", privacy := 2,
          login_code_available := false, last_login_time := 50, last_login_ipaddr := "ip" }],
       [⟨6, add_salt_and_hash "nk" "s6", 50 + EXPIRED_TIME, 0, ""⟩]⟩ :=
  login_password_without_key "" "ip" "nk" "pw" 50
    { qqid := 6, password := add_salt_and_hash "pw" "s6", salt := "s6", privacy := 2 }
    none rfl (by decide) (by decide) (by decide)

/-- The concrete user record for the C4 counterexample: password configured,
valid outstanding login code `"ABC123"`. -/
def c4_user : User :=
  { qqid := 1, password := add_salt_and_hash "pw" "s", salt := "s", privacy := 0,
    login_code := "ABC123", login_code_available := true, login_code_expire_time := 1000 }

/-- Claim C4 counterexample.  Scenario A: the login-code check fails, a
cookie is presented, and a wrong password is also presented: the surfaced
failure is the password failure, not the original code failure that the
claim requires, and cookie recall is not attempted.  Scenario B: the code
check fails, a cookie is presented and the server-side session is live: the
outcome is the already-authenticated redirect, so no failure is surfaced at
all. -/
theorem login_deferral_counterexample :
    (yobot_login "" 100 "ip" "nk" [c4_user] []
        ⟨some "1", some "XYZ", some "bad", some "1:zz", false⟩).outcome =
      .fail (wrongPwdErr "") ∧
    (wrongPwdErr "").reason ≠ invalidAddressErr.reason ∧
    (yobot_login "" 100 "ip" "nk" [c4_user] []
        ⟨some "1", some "XYZ", none, some "1:zz", true⟩).outcome =
      .redirect_session_alive :=
  ⟨rfl, by decide, rfl⟩

/-- Claim C4 as amended: when the login-code check fails, no password is
presented, and the server-side session is not live, a presented cookie
defers the code failure to an attempted cookie recall: if recall fails the
original code failure (not the recall failure) is surfaced, and if recall
succeeds the request is treated as a successful cookie login; with no
cookie presented, the code failure is surfaced immediately. -/
theorem login_key_failure_deferral (pfx ip nk q k : String) (now : Nat)
    (users : List User) (logins : List User_login) (req : LoginRequest)
    (e : ExceptionWithAdvice)
    (hq : req.qqid = some q) (hk : req.key = some k)
    (he : check_key pfx now (find_user users q) k = .error e)
    (hs : req.session_live = false)
    (hp : req.pwd = none) :
    (req.auth_cookie = none →
      yobot_login pfx now ip nk users logins req = ⟨.fail e, users, logins⟩) ∧
    (∀ ck : String, req.auth_cookie = some ck →
      (∀ e2 : ExceptionWithAdvice,
        (recall_from_cookie pfx now ip users logins ck).result = .error e2 →
        yobot_login pfx now ip nk users logins req =
          ⟨.fail e, users, (recall_from_cookie pfx now ip users logins ck).logins⟩) ∧
      (∀ u2 : User,
        (recall_from_cookie pfx now ip users logins ck).result = .ok u2 →
        (yobot_login pfx now ip nk users logins req).outcome =
          .redirect_recalled { u2 with last_login_time := now, last_login_ipaddr := ip })) := by
  obtain ⟨oq, okey, opwd, ock, sl⟩ := req
  simp only at hq hk hs hp
  subst hq hk hs hp
  constructor
  · intro hcook
    simp only at hcook
    subst hcook
    simp only [yobot_login, he]
  · intro ck hck
    simp only at hck
    subst hck
    constructor
    · intro e2 hre
      simp only [yobot_login, he, login_after_key, login_after_pwd, Bool.false_eq_true,
        if_false, hre]
    · intro u2 hok
      simp only [yobot_login, he, login_after_key, login_after_pwd, Bool.false_eq_true,
        if_false, hok]

/-- Witness for the amended C4: wrong code with an unparseable cookie and no
password surfaces the original code failure after the failed recall. -/
theorem login_key_failure_deferral_witness :
    yobot_login "" 100 "ip" "nk" [c4_user] [] ⟨some "1", some "XYZ", none, some "x", false⟩ =
      ⟨.fail invalidAddressErr, [c4_user], []⟩ :=
  ((login_key_failure_deferral "" "ip" "nk" "1" "XYZ" 100 [c4_user] []
      ⟨some "1", some "XYZ", none, some "x", false⟩ invalidAddressErr
      rfl rfl rfl rfl rfl).2 "x" rfl).1
    ⟨"Cookie异常", "请私聊机器人“登录”或重新登录"⟩ rfl
